import Mathlib

/-!
Verification of the coaching-platform mobile client (ozgun-v13).

The development shallowly embeds the session-identity, session-lifecycle,
role-gate, join-window and reminder-scheduling logic of the mobile
application (`coaching-mobile`) and proves the spec's claims about it.

Conventions of the embedding:
* TypeScript strings are Lean `String`s; JavaScript millisecond timestamps
  are `Int` (JS `Date.getTime()` is an integer number of milliseconds in
  the exercised range).
* Nullable values (`X | null | undefined`) are `Option X`.
* Functions that can `throw` return `Except`.
* Calls into the third-party Stream SDK are recorded as an explicit
  effect list, so that "no SDK call is attempted" is a statement about
  an empty (or `getOrCreate`-free) effect trace.
-/

namespace OzgunV13

/-! ## Identity Deriver

`createVideoCallId` is defined in `src/lib/stream.ts`, which is not part
of the source tree here (only its caller `StreamContext.tsx` is).  It is
modelled from the spec. -/

/-- Error conditions of the identity deriver (spec section 4.1 / 7). -/
inductive DeriveError
  | invalidIdentifier
deriving DecidableEq, Repr

/-- Modelled from the spec: the body of `createVideoCallId`
(`src/lib/stream.ts`, absent from the tree; only its call sites in
`StreamContext.tsx` are present).  Spec section 4.1: reject an empty
input with `InvalidIdentifier` before any network call, otherwise sort
the two identifiers by the total string order and join them with the
fixed separator, `min(idA,idB) ++ ":" ++ max(idA,idB)`. -/
def createVideoCallId (idA idB : String) : Except DeriveError String :=
  if idA = "" ∨ idB = "" then .error .invalidIdentifier
  else if idA ≤ idB then .ok (idA ++ ":" ++ idB)
  else .ok (idB ++ ":" ++ idA)

/-! ## Role Gate

`renderMainContent` in the app navigator (`src/unnamed/part_000`,
`AuthenticatedApp`): a pure branch on the profile's role and on whether
the coach has already selected a student. -/

/-- The two top-level UI surfaces the navigator can render. -/
inductive MainContent
  | mainTabs
  | coachStudentSelection
deriving DecidableEq, Repr

/-- `renderMainContent` of `AuthenticatedApp`: students go straight to
the main tabs; coaches see the student-selection screen until a student
is selected; any other (or absent) role falls through to the main tabs. -/
def renderMainContent (role : Option String) (studentSelected : Bool) :
    MainContent :=
  if role = some "student" then .mainTabs
  else if role = some "coach" then
    if studentSelected then .mainTabs else .coachStudentSelection
  else .mainTabs

/-! ## Claim theorems: identity deriver and role gate -/

/-- C1: the session-identifier derivation is commutative: for every pair
of participant identifiers `a` and `b`, `createVideoCallId a b`
equals `createVideoCallId b a`, so mobile and web independently compute
the identical call identifier. -/
theorem createVideoCallId_comm (a b : String) :
    createVideoCallId a b = createVideoCallId b a := by
  unfold createVideoCallId
  rcases eq_or_ne a "" with rfl | ha
  · rcases eq_or_ne b "" with rfl | hb <;> simp
  rcases eq_or_ne b "" with rfl | hb
  · simp
  have hab : ¬(a = "" ∨ b = "") := by simp [ha, hb]
  have hba : ¬(b = "" ∨ a = "") := by simp [ha, hb]
  rw [if_neg hab, if_neg hba]
  rcases lt_trichotomy a b with hlt | rfl | hlt
  · rw [if_pos hlt.le, if_neg (not_le.mpr hlt)]
  · rfl
  · rw [if_neg (not_le.mpr hlt), if_pos hlt.le]

/-- C8: deriving a session identifier from an empty participant
identifier is rejected with `InvalidIdentifier`:
`createVideoCallId "" "x"` fails with `DeriveError.invalidIdentifier`. -/
theorem createVideoCallId_empty_invalid :
    createVideoCallId "" "x" = .error .invalidIdentifier := by
  simp [createVideoCallId]

/-- C5: the role gate is a pure branch on the role attribute: role
`student` renders the main tabs for any selection state; role `coach`
renders the student-selection screen until a student is selected, and
the main tabs afterwards; any other or absent role renders the main
tabs (fail-open default). -/
theorem renderMainContent_role_gate (role : Option String) (sel : Bool) :
    renderMainContent (some "student") sel = .mainTabs ∧
    renderMainContent (some "coach") false = .coachStudentSelection ∧
    renderMainContent (some "coach") true = .mainTabs ∧
    (role ≠ some "student" → role ≠ some "coach" →
      renderMainContent role sel = .mainTabs) := by
  refine ⟨by simp [renderMainContent], by simp [renderMainContent],
    by simp [renderMainContent], fun h1 h2 => ?_⟩
  simp [renderMainContent, h1, h2]

/-- Witness for C5 at a concrete input: an absent role renders the main
tabs. -/
theorem renderMainContent_role_gate_witness :
    renderMainContent none false = .mainTabs :=
  (renderMainContent_role_gate none false).2.2.2 (by simp) (by simp)

/-! ## Session join window (`HomeScreen.tsx`)

`handleJoinSession` and `getSessionStatus` both combine the session's
`scheduled_date` with the hours/minutes split out of
`scheduled_start_time` (`new Date(d)` followed by
`setHours(hours, minutes, 0, 0)`), which yields a local-timezone
millisecond timestamp.  The embedding abstracts that computation as a
parameter `combine : String → String → Int` and works with the
resulting timestamps directly. -/

/-- `Math.floor(timeDiff / (1000 * 60))` with `timeDiff = sessionMs -
nowMs`: floored division of the signed millisecond difference by one
minute (`Int.fdiv` rounds toward negative infinity, as JS
`Math.floor` does on the real quotient). -/
def minutesUntilSession (sessionMs nowMs : Int) : Int :=
  (sessionMs - nowMs).fdiv 60000

/-- The record returned by `getSessionStatus`. -/
structure SessionStatus where
  text : String
  color : String
  canJoin : Bool
deriving DecidableEq, Repr

/-- `getSessionStatus` of `HomeScreen.tsx`: more than 10 computed
minutes before the start the session is not yet joinable; from 10
minutes before down to 60 minutes after it is joinable; afterwards it
has ended. -/
def getSessionStatus (sessionMs nowMs : Int) : SessionStatus :=
  if minutesUntilSession sessionMs nowMs > 10 then
    ⟨toString (minutesUntilSession sessionMs nowMs) ++ " dk sonra", "#6B7280", false⟩
  else if minutesUntilSession sessionMs nowMs ≥ -60 then
    ⟨"Katılabilirsiniz", "#10B981", true⟩
  else ⟨"Sona erdi", "#EF4444", false⟩

/-- Outcome of `handleJoinSession`: which alert is shown, or that the
video call is initialized (and then started) with the given partner. -/
inductive JoinOutcome
  | demoAlert
  | tooEarlyAlert
  | endedAlert
  | callInitialized (partnerId : String)
deriving DecidableEq, Repr

/-- `handleJoinSession` of `HomeScreen.tsx`: in demo mode it alerts and
returns; next it computes the floored minutes until the session start
and alerts and returns when that is `> 10` or `< -60`; otherwise it
initializes the video call with the partner (`assigned_by` for a
student, `assigned_to` otherwise). -/
def handleJoinSession (demoMode : Bool) (role : Option String)
    (assignedBy assignedTo : String) (sessionMs nowMs : Int) :
    JoinOutcome :=
  if demoMode then .demoAlert
  else if minutesUntilSession sessionMs nowMs > 10 then .tooEarlyAlert
  else if minutesUntilSession sessionMs nowMs < -60 then .endedAlert
  else .callInitialized (if role = some "student" then assignedBy else assignedTo)

/-- C9: `handleJoinSession` initiates a video call exactly when demo
mode is off and the computed minutes until the session start lie
between `-60` and `10` inclusive (at most 10 floored minutes before the
start, at most 60 minutes after); outside that window it only shows an
alert; and `getSessionStatus` marks the session joinable under exactly
the same window condition. -/
theorem handleJoinSession_window (demoMode : Bool) (role : Option String)
    (assignedBy assignedTo : String) (sessionMs nowMs : Int) :
    ((∃ p, handleJoinSession demoMode role assignedBy assignedTo sessionMs nowMs
        = .callInitialized p) ↔
      (demoMode = false ∧ -60 ≤ minutesUntilSession sessionMs nowMs ∧
        minutesUntilSession sessionMs nowMs ≤ 10)) ∧
    ((getSessionStatus sessionMs nowMs).canJoin = true ↔
      (-60 ≤ minutesUntilSession sessionMs nowMs ∧
        minutesUntilSession sessionMs nowMs ≤ 10)) := by
  unfold handleJoinSession getSessionStatus
  generalize minutesUntilSession sessionMs nowMs = m
  constructor
  · rcases demoMode with _ | _
    · simp only [Bool.false_eq_true, if_false]
      constructor
      · rintro ⟨p, hp⟩
        refine ⟨by trivial, ?_⟩
        split at hp
        · simp at hp
        split at hp
        · simp at hp
        omega
      · rintro ⟨-, h1, h2⟩
        rw [if_neg (by omega), if_neg (by omega)]
        exact ⟨_, rfl⟩
    · simp
  · split
    · rename_i h
      simp only [show (SessionStatus.mk _ _ false).canJoin = false from rfl]
      constructor
      · intro hc; cases hc
      · intro hc; omega
    split
    · rename_i h h2
      simp only [show (SessionStatus.mk _ _ true).canJoin = true from rfl]
      exact ⟨fun _ => by omega, fun _ => by trivial⟩
    · rename_i h h2
      simp only [show (SessionStatus.mk _ _ false).canJoin = false from rfl]
      constructor
      · intro hc; cases hc
      · intro hc; omega

/-! ## Session reminders (`NotificationService.scheduleSessionReminders`,
`src/unnamed/part_001`)

The function combines `scheduled_date` and `scheduled_start_time` into a
local millisecond timestamp exactly as `HomeScreen` does; the embedding
again abstracts that as `combine`.  JavaScript truthiness of the two
string fields is modelled explicitly: both `undefined` and the empty
string are falsy. -/

/-- JS falsiness of an optional string field
(`!session.scheduled_date`): absent or empty. -/
def jsFalsyStr : Option String → Bool
  | none => true
  | some s => s = ""

/-- One scheduled local notification: its title and the trigger
timestamp passed to `scheduleNotificationAsync`. -/
structure ScheduledReminder where
  title : String
  triggerMs : Int
deriving DecidableEq, Repr

/-- `NotificationService.scheduleSessionReminders`: nothing is scheduled
when the date or start time is missing or when the combined session
time is not strictly in the future; otherwise each of the 24-hour,
1-hour and 15-minute reminders is scheduled iff its trigger timestamp
is strictly greater than the current time. -/
def scheduleSessionReminders (combine : String → String → Int)
    (scheduled_date scheduled_start_time : Option String) (nowMs : Int) :
    List ScheduledReminder :=
  if jsFalsyStr scheduled_date ∨ jsFalsyStr scheduled_start_time then []
  else
    match scheduled_date, scheduled_start_time with
    | some d, some t =>
      if combine d t ≤ nowMs then []
      else
        (if combine d t - 24 * 60 * 60 * 1000 > nowMs then
          [⟨"Koçluk Seansı Hatırlatması", combine d t - 24 * 60 * 60 * 1000⟩]
        else []) ++
        (if combine d t - 60 * 60 * 1000 > nowMs then
          [⟨"Koçluk Seansı Hatırlatması", combine d t - 60 * 60 * 1000⟩]
        else []) ++
        (if combine d t - 15 * 60 * 1000 > nowMs then
          [⟨"Koçluk Seansı Yaklaşıyor!", combine d t - 15 * 60 * 1000⟩]
        else [])
    | _, _ => []

/-- C10: `scheduleSessionReminders` never schedules a notification in
the past: every scheduled reminder's trigger time is strictly later
than the current time, and a session whose combined time is not
strictly in the future gets no reminders at all. -/
theorem scheduleSessionReminders_never_past
    (combine : String → String → Int)
    (d t : Option String) (nowMs : Int) :
    (∀ r ∈ scheduleSessionReminders combine d t nowMs,
      nowMs < r.triggerMs) ∧
    (∀ ds ts, d = some ds → t = some ts → combine ds ts ≤ nowMs →
      scheduleSessionReminders combine d t nowMs = []) := by
  constructor
  · intro r hr
    unfold scheduleSessionReminders at hr
    split at hr
    · simp at hr
    split at hr
    · split at hr
      · simp at hr
      rename_i hpast
      simp only [List.mem_append] at hr
      rcases hr with (hr | hr) | hr <;> (split at hr <;> simp_all)
    · simp at hr
  · rintro ds ts rfl rfl hle
    unfold scheduleSessionReminders
    split
    · rfl
    · exact if_pos hle

/-- Witness for C10: a session scheduled at timestamp 0 with the clock
already at 5 gets no reminders. -/
theorem scheduleSessionReminders_never_past_witness :
    scheduleSessionReminders (fun _ _ => 0) (some "2024-01-01")
      (some "10:00") 5 = [] :=
  (scheduleSessionReminders_never_past (fun _ _ => 0) (some "2024-01-01")
    (some "10:00") 5).2 "2024-01-01" "10:00" rfl rfl (by decide)

/-! ## Stream session lifecycle (`StreamContext.tsx`)

The provider's state is the relevant subset of the React state cells:
whether a video/chat client instance is installed (`null` or not), the
current call handle, the current chat channel and the ready flag.
Calls into the Stream SDK are returned as an effect list. -/

/-- A call handle: the mock object built in the demo branch of
`initializeVideoCall` (its `join`/`leave` are no-ops) or a real SDK
call object bound to a call identifier. -/
inductive CallHandle
  | mock
  | real (callId : String)
deriving DecidableEq, Repr

/-- SDK side effects performed by the provider. -/
inductive StreamEffect
  | getOrCreate (callId : String) (memberIds : List String)
  | joinCall (c : CallHandle)
  | leaveCall (c : CallHandle)
  | disconnectVideoUser
  | disconnectChatUser
deriving DecidableEq, Repr

/-- The provider's session-related state cells. -/
structure StreamState where
  videoClient : Bool
  videoCall : Option CallHandle
  chatClient : Bool
  chatChannel : Bool
  isStreamReady : Bool
deriving DecidableEq, Repr

/-- The `useState` initial values: no clients, no call, no channel, not
ready. -/
def initialStreamState : StreamState := ⟨false, none, false, false, false⟩

/-- Errors thrown by the provider's functions. -/
inductive StreamError
  | videoClientNotInitialized
  | invalidCallId (e : DeriveError)
  | sdkFailure
deriving DecidableEq, Repr

/-- `initializeStreamClient`: in demo mode it only marks the provider
ready and returns — neither client is created.  Otherwise, with an
authenticated user/profile and successful token generation and client
construction (`tokenOk`), both clients are installed and the provider
is marked ready; on failure the error handler leaves the clients
untouched. -/
def initializeStreamClient (demoMode userPresent tokenOk : Bool)
    (s : StreamState) : StreamState :=
  if demoMode then { s with isStreamReady := true }
  else if !userPresent then s
  else if !tokenOk then s
  else { s with videoClient := true, chatClient := true, isStreamReady := true }

/-- `initializeVideoCall`: the guard `!videoClient || !user` throws
first; only then comes the demo branch building the mock call; the real
branch derives the call id, emits `call.getOrCreate` with both members
and stores the call handle. -/
def initializeVideoCall (demoMode : Bool) (userId : Option String)
    (partnerId : String) (s : StreamState) :
    Except StreamError (CallHandle × StreamState × List StreamEffect) :=
  if s.videoClient = false ∨ userId = none then
    .error .videoClientNotInitialized
  else if demoMode then
    .ok (.mock, { s with videoCall := some .mock }, [])
  else
    match userId with
    | none => .error .videoClientNotInitialized
    | some uid =>
      match createVideoCallId uid partnerId with
      | .error e => .error (.invalidCallId e)
      | .ok callId =>
        .ok (.real callId, { s with videoCall := some (.real callId) },
          [.getOrCreate callId [uid, partnerId]])

/-- `endVideoCall`: with no active call it returns at once; otherwise
it awaits `videoCall.leave()` (whose failure is rethrown, modelled by
`leaveFails`) and clears the handle. -/
def endVideoCall (leaveFails : Bool) (s : StreamState) :
    Except StreamError (StreamState × List StreamEffect) :=
  match s.videoCall with
  | none => .ok (s, [])
  | some c =>
    if leaveFails then .error .sdkFailure
    else .ok ({ s with videoCall := none }, [.leaveCall c])

/-- `cleanupStream` (run when authentication is lost, i.e. on
sign-out): disconnect whichever clients exist, then null out the
clients, the call handle, the channel and the ready flag. -/
def cleanupStream (s : StreamState) : StreamState × List StreamEffect :=
  ({ videoClient := false, videoCall := none, chatClient := false,
     chatChannel := false, isStreamReady := false },
   (if s.videoClient then [StreamEffect.disconnectVideoUser] else []) ++
   (if s.chatClient then [StreamEffect.disconnectChatUser] else []))

/-- Recognizes a `leave()` SDK call in an effect trace. -/
def isLeaveEffect : StreamEffect → Bool
  | .leaveCall _ => true
  | _ => false

/-- Recognizes a `call.getOrCreate` SDK call in an effect trace. -/
def isGetOrCreateEffect : StreamEffect → Bool
  | .getOrCreate _ _ => true
  | _ => false

/-- C2 (code bug): in demo mode `initializeStreamClient` returns before
installing a video client, so a following `initializeVideoCall` fails
its `!videoClient` guard ("Video client not initialized") and never
reaches the demo branch that would build and return the mock call: no
stub handle is returned, the call throws instead. -/
theorem demoMode_initializeVideoCall_fails :
    (initializeStreamClient true true true initialStreamState).videoClient
      = false ∧
    initializeVideoCall true (some "user-1") "partner-1"
        (initializeStreamClient true true true initialStreamState)
      = .error .videoClientNotInitialized := by
  exact ⟨rfl, rfl⟩

/-- C3: calling `endVideoCall` while no call is active is a safe no-op:
it returns without throwing (even if a `leave()` call would fail),
performs no SDK call and leaves the whole provider state unchanged. -/
theorem endVideoCall_none_noop (leaveFails : Bool) (s : StreamState)
    (h : s.videoCall = none) :
    endVideoCall leaveFails s = .ok (s, []) := by
  unfold endVideoCall
  rw [h]

/-- Witness for C3 at the initial provider state. -/
theorem endVideoCall_none_noop_witness :
    endVideoCall true initialStreamState = .ok (initialStreamState, []) :=
  endVideoCall_none_noop true initialStreamState rfl

/-- C7 counterexample: in a state with an active call and live clients,
the sign-out path (`cleanupStream`) discards the call handle while its
SDK effect trace is exactly the two client disconnects — it contains no
`leave()` call. -/
theorem cleanupStream_discards_without_leave :
    (cleanupStream ⟨true, some (.real "a:b"), true, true, true⟩).1.videoCall
      = none ∧
    (cleanupStream ⟨true, some (.real "a:b"), true, true, true⟩).2
      = [.disconnectVideoUser, .disconnectChatUser] ∧
    ((cleanupStream ⟨true, some (.real "a:b"), true, true, true⟩).2.any
      isLeaveEffect) = false := by
  exact ⟨rfl, rfl, rfl⟩

/-- C7 (amended): `leave()` is invoked on the explicit call-end path:
`endVideoCall` on an active call emits exactly the leave effect and
clears the handle.  On sign-out, however, `cleanupStream` discards the
handle after disconnecting the clients without any `leave()`; and no
app-backgrounding cleanup path exists in the repository. -/
theorem exitPaths_release (s : StreamState) (c : CallHandle)
    (h : s.videoCall = some c) :
    endVideoCall false s
      = .ok ({ s with videoCall := none }, [.leaveCall c]) ∧
    (cleanupStream s).1.videoCall = none ∧
    (cleanupStream s).2.any isLeaveEffect = false := by
  refine ⟨?_, rfl, ?_⟩
  · unfold endVideoCall
    rw [h]
    rfl
  · unfold cleanupStream
    cases hv : s.videoClient <;> cases hc : s.chatClient <;> simp [isLeaveEffect]

/-- Witness for C7 (amended) at a concrete state holding a mock call. -/
theorem exitPaths_release_witness :
    endVideoCall false ⟨true, some CallHandle.mock, true, true, true⟩
      = .ok (⟨true, none, true, true, true⟩, [.leaveCall .mock]) :=
  (exitPaths_release ⟨true, some .mock, true, true, true⟩ .mock rfl).1

/-! ## Session Initializer contract (external platform)

`call.getOrCreate` is implemented by the third-party Stream SDK, not by
this repository; its create-or-fetch semantics is modelled from the
spec (sections 3 `SessionRecord` and 4.2). -/

/-- A handle to a session on the communications platform: the session
identifier and the registered membership. -/
structure SessionHandle where
  sessionId : String
  memberIds : List String
deriving DecidableEq, Repr

/-- Failure modes of the session initializer (spec section 4.2). -/
inductive SessionError
  | authenticationFailed
  | networkUnavailable
  | sessionCreateFailed
deriving DecidableEq, Repr

/-- Modelled from the spec: the external communications platform's
create-or-fetch session operation backing `call.getOrCreate`
(spec sections 3 and 4.2; the implementation is the third-party SDK and
is not part of this repository).  The platform's session table maps
session identifiers to membership lists; an existing session is
fetched, a new one is created with both participants as members unless
the platform rejects the creation (`reject`), which surfaces as
`SessionCreateFailed`. -/
def getOrCreateSession (reject : String → Bool)
    (sessions : List (String × List String))
    (sessionId selfId partnerId : String) :
    Except SessionError (List (String × List String) × SessionHandle) :=
  match sessions.find? (fun e => e.1 == sessionId) with
  | some e => .ok (sessions, ⟨e.1, e.2⟩)
  | none =>
    if reject sessionId then .error .sessionCreateFailed
    else .ok ((sessionId, [selfId, partnerId]) :: sessions,
              ⟨sessionId, [selfId, partnerId]⟩)

/-- C4: `getOrCreateSession` is idempotent: whenever a call succeeds,
repeating it with identical session id and members on the resulting
platform state raises no error (in particular no
`SessionCreateFailed`), leaves the platform state unchanged (no
duplicate session) and returns the same handle to the same underlying
session membership. -/
theorem getOrCreateSession_idempotent (reject : String → Bool)
    (sessions : List (String × List String)) (sid a b : String)
    (sessions' : List (String × List String)) (h : SessionHandle)
    (hfst : getOrCreateSession reject sessions sid a b
      = .ok (sessions', h)) :
    getOrCreateSession reject sessions' sid a b = .ok (sessions', h) := by
  unfold getOrCreateSession at hfst ⊢
  cases hfind : sessions.find? (fun e => e.1 == sid) with
  | some e =>
    rw [hfind] at hfst
    simp only [Except.ok.injEq, Prod.mk.injEq] at hfst
    obtain ⟨rfl, rfl⟩ := hfst
    rw [hfind]
  | none =>
    rw [hfind] at hfst
    by_cases hr : reject sid
    · rw [if_pos hr] at hfst
      cases hfst
    · rw [if_neg hr] at hfst
      simp only [Except.ok.injEq, Prod.mk.injEq] at hfst
      obtain ⟨rfl, rfl⟩ := hfst
      have hhead : ((sid, [a, b]) :: sessions).find? (fun e => e.1 == sid)
          = some (sid, [a, b]) := by
        simp [List.find?]
      rw [hhead]

/-- Witness for C4: after creating session `u1:u2` on an empty
platform, the repeated call returns the same state and handle. -/
theorem getOrCreateSession_idempotent_witness :
    getOrCreateSession (fun _ => false) [("u1:u2", ["u1", "u2"])]
        "u1:u2" "u1" "u2"
      = .ok ([("u1:u2", ["u1", "u2"])], ⟨"u1:u2", ["u1", "u2"]⟩) :=
  getOrCreateSession_idempotent (fun _ => false) [] "u1:u2" "u1" "u2"
    [("u1:u2", ["u1", "u2"])] ⟨"u1:u2", ["u1", "u2"]⟩ rfl

/-! ## Coach student selection flow
(`CoachStudentContext.tsx` in `src/unnamed/part_000`,
`CoachStudentSelectionScreen.tsx`) -/

/-- The participant profile fields this flow reads. -/
structure UserProfile where
  id : String
  full_name : String
  email : String
  role : String
deriving DecidableEq, Repr

/-- One row of `coach_student_assignments`, with the joined
`user_profiles` record of the student (nullable). -/
structure AssignmentRow where
  coach_id : String
  student_id : String
  is_active : Bool
  student_profile : Option UserProfile
deriving DecidableEq, Repr

/-- The supabase query inside `loadStudents`: assignment rows with this
coach id and `is_active = true`. -/
def queryActiveAssignments (rows : List AssignmentRow) (coachId : String) :
    List AssignmentRow :=
  rows.filter (fun r => r.coach_id == coachId && r.is_active)

/-- `loadStudents` of `CoachStudentContext.tsx`: returns the new value
of `availableStudents`.  For a missing profile or a non-coach role it
returns early; with no database client it returns early (error set);
otherwise the joined student profiles of the active assignments, with
null joins filtered out (`filter(Boolean)`). -/
def loadStudents (profile : Option UserProfile)
    (db : Option (List AssignmentRow)) (current : List UserProfile) :
    List UserProfile :=
  match profile with
  | none => current
  | some p =>
    if p.role ≠ "coach" then current
    else
      match db with
      | none => current
      | some rows =>
        (queryActiveAssignments rows p.id).filterMap
          (fun r => r.student_profile)

/-- What `CoachStudentSelectionScreen` renders: the full-screen spinner,
and which of the error banner, empty-state ("No students assigned") and
student list blocks are shown. -/
structure SelectionRender where
  loadingSpinner : Bool
  showsError : Bool
  showsEmpty : Bool
  showsList : Bool
deriving DecidableEq, Repr

/-- The render logic of `CoachStudentSelectionScreen`: a spinner while
loading with no students yet; otherwise the error banner iff an error
is set, the empty state iff the list is empty with no load in progress
and no error, and the list iff it is non-empty. -/
def renderSelectionScreen (students : List UserProfile) (loading : Bool)
    (error : Option String) : SelectionRender :=
  if loading && students.isEmpty then ⟨true, false, false, false⟩
  else ⟨false, error.isSome,
        students.isEmpty && !loading && error.isNone,
        !students.isEmpty⟩

/-- The user-level events of the authenticated app. -/
inductive AppEvent
  | studentsLoaded (rows : List AssignmentRow)
  | selectStudent (s : UserProfile)
  | doSignOut
  | joinSession (userId partnerId : String)
deriving DecidableEq, Repr

/-- Which events each top-level surface can generate.  On the
student-selection screen the only handlers are the `loadStudents`
query (initial load, retry, pull-to-refresh), `handleStudentSelect` and
`handleSignOut`; the Home/Chat/Video tabs, the only places that start
calls, are mounted only under `mainTabs`. -/
def eventEnabled : MainContent → AppEvent → Bool
  | .coachStudentSelection, .studentsLoaded _ => true
  | .coachStudentSelection, .selectStudent _ => true
  | .coachStudentSelection, .doSignOut => true
  | .coachStudentSelection, .joinSession _ _ => false
  | .mainTabs, _ => true

/-- The Stream SDK effects emitted while handling each event in stream
state `st`: loading students only queries the relational store,
selecting a student only sets local context state, sign-out runs
`cleanupStream`, and joining a session runs `initializeVideoCall`
(whose success emits `call.getOrCreate`). -/
def eventEffects (st : StreamState) : AppEvent → List StreamEffect
  | .studentsLoaded _ => []
  | .selectStudent _ => []
  | .doSignOut => (cleanupStream st).2
  | .joinSession uid pid =>
    match initializeVideoCall false (some uid) pid st with
    | .ok (_, _, effs) => effs
    | .error _ => []

/-- C6: a coach with zero active assignments gets an empty
`availableStudents` list from `loadStudents`; with no student selected
the navigator renders the partner-selection screen, which shows the
empty state for an empty list; and no event available on that screen
ever emits a `call.getOrCreate` SDK call. -/
theorem coach_zero_assignments_flow (p : UserProfile)
    (rows : List AssignmentRow) (cur : List UserProfile)
    (st : StreamState) (e : AppEvent)
    (hrole : p.role = "coach")
    (hzero : queryActiveAssignments rows p.id = []) :
    loadStudents (some p) (some rows) cur = [] ∧
    renderMainContent (some "coach") false = .coachStudentSelection ∧
    (renderSelectionScreen [] false none).showsEmpty = true ∧
    (eventEnabled .coachStudentSelection e = true →
      (eventEffects st e).any isGetOrCreateEffect = false) := by
  refine ⟨?_, rfl, rfl, ?_⟩
  · show (if p.role ≠ "coach" then cur
      else (queryActiveAssignments rows p.id).filterMap
        (fun r => r.student_profile)) = []
    rw [if_neg (by simp [hrole]), hzero]
    rfl
  · intro he
    cases e with
    | studentsLoaded _ => rfl
    | selectStudent _ => rfl
    | doSignOut =>
      show ((cleanupStream st).2.any isGetOrCreateEffect) = false
      cases hv : st.videoClient <;> cases hc : st.chatClient <;>
        simp [cleanupStream, hv, hc, isGetOrCreateEffect]
    | joinSession uid pid =>
      simp [eventEnabled] at he

/-- Witness for C6: a coach with an empty assignment table gets the
empty student list. -/
theorem coach_zero_assignments_flow_witness :
    loadStudents (some ⟨"c1", "Coach One", "c1@x", "coach"⟩) (some []) []
      = [] :=
  (coach_zero_assignments_flow ⟨"c1", "Coach One", "c1@x", "coach"⟩ [] []
    initialStreamState .doSignOut rfl rfl).1

end OzgunV13
